import Mathlib

set_option maxHeartbeats 1000000

/-!
Verification of the Animal Explorer AI core (cache service, rate limiter,
session-driven job orchestration) against its natural-language specification.

The Python sources (`cache_service.py`, `rate_limiter.py`, `web_app.py`,
`session_service.py`) are shallowly embedded: dictionaries become structures
with `Option` fields for possibly-absent keys, the Redis / in-memory store
becomes explicit state passing over total functions `String → Option _`,
provider calls become an environment of pure functions plus an event trace,
and the single modelled exception (`KeyError` on a missing dict key) becomes
an explicit error component.  Timestamps/TTL expiry are not modelled: all
statements concern behaviour within one validity window, which is what the
claims quantify over.  The MD5 digest used for cache keys is treated as an
uninterpreted function parameter `md5hex`, since no claim depends on any
property of the digest beyond it being a function of the normalized query.
-/

namespace AnimalExplorer

/-! ## Python string primitives (ASCII case folding, `\s` whitespace) -/

/-- ASCII lower-casing of a character, mirroring `str.lower` on the ASCII
range (the markers and status strings compared by the code are ASCII). -/
def asciiLower (c : Char) : Char :=
if 'A' ≤ c ∧ c ≤ 'Z' then Char.ofNat (c.toNat + 32) else c

/-- ASCII upper-casing of a character, mirroring `str.upper` on ASCII. -/
def asciiUpper (c : Char) : Char :=
if 'a' ≤ c ∧ c ≤ 'z' then Char.ofNat (c.toNat - 32) else c

/-- `str.lower`. -/
def lowerStr (s : String) : String := ⟨s.data.map asciiLower⟩

/-- `str.upper`. -/
def upperStr (s : String) : String := ⟨s.data.map asciiUpper⟩

/-- Python `\s` / `str.strip` whitespace class. -/
def isPySpace (c : Char) : Bool :=
c == ' ' || c == '\t' || c == '\n' || c == '\r' || c == '\x0b' || c == '\x0c'

/-- `str.strip()` on a character list. -/
def pyStripList (l : List Char) : List Char :=
((l.dropWhile isPySpace).reverse.dropWhile isPySpace).reverse

/-- `str.strip()`. -/
def pyStrip (s : String) : String := ⟨pyStripList s.data⟩

/-- `str.strip(chars)` on a character list: drop leading and trailing
characters belonging to `chars`. -/
def stripSet (chars : List Char) (l : List Char) : List Char :=
((l.dropWhile chars.contains).reverse.dropWhile chars.contains).reverse

/-- Index of the first occurrence of `needle` in `hay`
(Python `str.find`, `none` when absent). -/
def findSub (needle : List Char) : List Char → Option Nat
| [] => if needle.isEmpty then some 0 else none
| c :: rest =>
  if needle.isPrefixOf (c :: rest) then some 0
  else (findSub needle rest).map (· + 1)

/-- `str.split(sep)` for a single-character separator. -/
def splitOnChar (sep : Char) : List Char → List (List Char)
| [] => [[]]
| c :: rest =>
  let r := splitOnChar sep rest
  if c = sep then [] :: r
  else
    match r with
    | h :: t => (c :: h) :: t
    | [] => [[c]]

/-- Fuel-driven worker for `str.replace` (left-to-right, non-overlapping);
fuel `hay.length` always suffices for a non-empty needle. -/
def replaceFuel (needle repl : List Char) : Nat → List Char → List Char
| _, [] => []
| 0, l => l
| fuel + 1, c :: rest =>
  if needle.isPrefixOf (c :: rest) then
    repl ++ replaceFuel needle repl fuel (List.drop needle.length (c :: rest))
  else
    c :: replaceFuel needle repl fuel rest

/-- `str.replace(needle, repl)` (all occurrences). -/
def replaceAll (s needle repl : String) : String :=
⟨replaceFuel needle.data repl.data s.data.length s.data⟩

/-- Case-insensitive model of `re.search(marker + r'\s*([^\n\r]+)', content,
re.IGNORECASE)` returning the captured group: find the marker in the lowered
text, skip whitespace, capture the non-empty run of non-newline characters
from the original text. -/
def captureAfter (marker content : String) : Option String :=
match findSub (lowerStr marker).data (lowerStr content).data with
| none => none
| some i =>
  let rest := content.data.drop (i + marker.data.length)
  let cap := (rest.dropWhile isPySpace).takeWhile (fun c => c != '\n' && c != '\r')
  if cap.isEmpty then none else some ⟨cap⟩

/-! ## Cache service (`cache_service.py`) -/

namespace Cache

/-- `INFO_PREFIX` in `CacheService.__init__`. -/
def infoPre : String := "cache:animal_info:"

/-- `IMAGE_PREFIX` in `CacheService.__init__`. -/
def imagePre : String := "cache:animal_image:"

/-- One cached JSON dictionary; `Option` fields model possibly-absent keys
(`cache_version` carries no claim content and is elided). -/
structure CacheDict where
  animal : Option String := none
  info : Option String := none
  image : Option String := none
  english_name : Option String := none
  cached_at : Nat := 0
deriving DecidableEq, Repr

/-- The cache portion of the key-value store. -/
def CacheStore : Type := String → Option CacheDict

/-- Query normalization inside `_get_cache_key`: `identifier.lower().strip()`. -/
def normalizeQuery (s : String) : String := pyStrip (lowerStr s)

/-- `_get_cache_key`: prefix plus digest of the normalized identifier.
`md5hex` stands for `hashlib.md5(...).hexdigest()`. -/
def get_cache_key (md5hex : String → String) (pre identifier : String) : String :=
pre ++ md5hex (normalizeQuery identifier)

/-- `_set_cache` (TTL elided; the store write itself). -/
def set_cache (store : CacheStore) (key : String) (d : CacheDict) : CacheStore :=
fun k => if k = key then some d else store k

/-- `cache_animal_info`. -/
def cache_animal_info (md5hex : String → String) (animal info_data english_name : String)
    (now : Nat) (store : CacheStore) : CacheStore :=
set_cache store (get_cache_key md5hex infoPre animal)
  { animal := some (normalizeQuery animal), info := some info_data,
    english_name := some english_name, cached_at := now }

/-- `cache_animal_image`. -/
def cache_animal_image (md5hex : String → String) (animal image_data_url english_name : String)
    (now : Nat) (store : CacheStore) : CacheStore :=
set_cache store (get_cache_key md5hex imagePre animal)
  { animal := some (normalizeQuery animal), image := some image_data_url,
    english_name := some english_name, cached_at := now }

/-- Result dictionary of `get_cached_animal_info` (`from_cache` is always
`True` and is elided). -/
structure InfoCacheHit where
  info : String
  english_name : String
  cached_at : Nat
deriving DecidableEq, Repr

/-- Result dictionary of `get_cached_animal_image`. -/
structure ImageCacheHit where
  image : String
  english_name : String
  cached_at : Nat
deriving DecidableEq, Repr

/-- `get_cached_animal_info`: cache lookup plus the `'info' in cached_data and
'animal' in cached_data` field checks. -/
def get_cached_animal_info (md5hex : String → String) (animal : String)
    (store : CacheStore) : Option InfoCacheHit :=
match store (get_cache_key md5hex infoPre animal) with
| none => none
| some d =>
  match d.info, d.animal with
  | some i, some _ => some { info := i, english_name := d.english_name.getD "",
                             cached_at := d.cached_at }
  | _, _ => none

/-- `get_cached_animal_image`. -/
def get_cached_animal_image (md5hex : String → String) (animal : String)
    (store : CacheStore) : Option ImageCacheHit :=
match store (get_cache_key md5hex imagePre animal) with
| none => none
| some d =>
  match d.image, d.animal with
  | some i, some _ => some { image := i, english_name := d.english_name.getD "",
                             cached_at := d.cached_at }
  | _, _ => none

/-- Result dictionary of `get_complete_cached_animal`; `image = none` models
the partial-hit dictionary that has no `'image'` key, and `partialCache`
models the `'partial_cache'` marker key. -/
structure CompleteCacheHit where
  info : String
  image : Option String
  english_name : String
  partialCache : Bool
  cached_at : Nat
deriving DecidableEq, Repr

/-- `get_complete_cached_animal` (lines 151-173 of `cache_service.py`): full
dictionary when both info and image are cached, a partial dictionary without
the `'image'` key when only info is cached, absent otherwise. -/
def get_complete_cached_animal (md5hex : String → String) (animal : String)
    (store : CacheStore) : Option CompleteCacheHit :=
match get_cached_animal_info md5hex animal store,
      get_cached_animal_image md5hex animal store with
| some ic, some im =>
  some { info := ic.info, image := some im.image, english_name := ic.english_name,
         partialCache := false, cached_at := min ic.cached_at im.cached_at }
| some ic, none =>
  some { info := ic.info, image := none, english_name := ic.english_name,
         partialCache := true, cached_at := ic.cached_at }
| none, _ => none

/-- The empty cache store. -/
def emptyCache : CacheStore := fun _ => none

end Cache

/-- A concrete digest instance used to evaluate witnesses; the development is
parametric in the digest. -/
def idHash : String → String := fun s => s

section CacheClaims

open Cache

/-- The info-key and image-key namespaces never collide: the two prefixes
differ at character index 14 (`n` vs `m`), regardless of the digest suffix. -/
theorem info_image_key_ne (x y : String) : infoPre ++ x ≠ imagePre ++ y := by
  intro h
  have h14 := congrArg (fun s : String => s.data[14]?) h
  simp only [String.data_append] at h14
  rw [List.getElem?_append_left (by decide : 14 < infoPre.data.length),
      List.getElem?_append_left (by decide : 14 < imagePre.data.length)] at h14
  revert h14
  decide

/-- Claim C1 (counterexample): with only the info cached for a query, the
claimed "non-absent only if both cached" fails — `get_complete_cached_animal`
returns a (partial) result although the image is not cached. -/
theorem claim_C1_counterexample :
    Cache.get_cached_animal_image idHash "lion"
      (Cache.cache_animal_info idHash "lion" "Lion facts" "lion" 0 Cache.emptyCache) = none ∧
    (Cache.get_complete_cached_animal idHash "lion"
      (Cache.cache_animal_info idHash "lion" "Lion facts" "lion" 0 Cache.emptyCache)).isSome
      = true := by
  constructor
  · rfl
  · rfl

/-- Claim C1 (amended): `get_complete_cached_animal q` returns a non-absent
result exactly when `get_cached_animal_info q` is non-absent; in particular it
never returns a result when the image is cached but the info is not, but it
does return a partial result when the info is cached and the image is not. -/
theorem claim_C1_amended (md5hex : String → String) (q : String) (store : Cache.CacheStore) :
    (Cache.get_complete_cached_animal md5hex q store).isSome
      = (Cache.get_cached_animal_info md5hex q store).isSome := by
  unfold Cache.get_complete_cached_animal
  cases hi : Cache.get_cached_animal_info md5hex q store <;>
    cases him : Cache.get_cached_animal_image md5hex q store <;> rfl

/-- Claim C9: queries equal after lower-casing and trimming address the same
cache entry — caching info (resp. image) under `q` is read back under `q'`
with the stored payload — and the info/image key namespaces are disjoint, so
storing one kind never overwrites the other. -/
theorem claim_C9 (md5hex : String → String) (q q' p en : String) (now : Nat)
    (store : Cache.CacheStore)
    (hq : Cache.normalizeQuery q = Cache.normalizeQuery q') :
    Cache.get_cached_animal_info md5hex q'
        (Cache.cache_animal_info md5hex q p en now store)
      = some { info := p, english_name := en, cached_at := now } ∧
    Cache.get_cached_animal_image md5hex q'
        (Cache.cache_animal_image md5hex q p en now store)
      = some { image := p, english_name := en, cached_at := now } ∧
    Cache.get_cached_animal_info md5hex q'
        (Cache.cache_animal_image md5hex q p en now store)
      = Cache.get_cached_animal_info md5hex q' store ∧
    Cache.get_cached_animal_image md5hex q'
        (Cache.cache_animal_info md5hex q p en now store)
      = Cache.get_cached_animal_image md5hex q' store := by
  have hkey : ∀ pre : String, Cache.get_cache_key md5hex pre q'
      = Cache.get_cache_key md5hex pre q := by
    intro pre
    unfold Cache.get_cache_key
    rw [hq]
  refine ⟨?_, ?_, ?_, ?_⟩
  · unfold Cache.get_cached_animal_info Cache.cache_animal_info Cache.set_cache
    rw [hkey, if_pos rfl]
    rfl
  · unfold Cache.get_cached_animal_image Cache.cache_animal_image Cache.set_cache
    rw [hkey, if_pos rfl]
    rfl
  · unfold Cache.get_cached_animal_info Cache.cache_animal_image Cache.set_cache
      Cache.get_cache_key
    rw [if_neg (info_image_key_ne _ _)]
  · unfold Cache.get_cached_animal_image Cache.cache_animal_info Cache.set_cache
      Cache.get_cache_key
    rw [if_neg (fun h => info_image_key_ne _ _ h.symm)]

/-- Concrete instantiation of C9: `"Lion "` and `"lion"` normalize equally and
round-trip through both cache kinds without cross-interference. -/
theorem claim_C9_witness :
    Cache.normalizeQuery "Lion " = Cache.normalizeQuery "lion" ∧
    Cache.get_cached_animal_info idHash "lion"
        (Cache.cache_animal_info idHash "Lion " "Lion facts" "lion" 7 Cache.emptyCache)
      = some { info := "Lion facts", english_name := "lion", cached_at := 7 } := by
  have h : Cache.normalizeQuery "Lion " = Cache.normalizeQuery "lion" := by decide
  exact ⟨h, (claim_C9 idHash "Lion " "lion" "Lion facts" "lion" 7 Cache.emptyCache h).1⟩

end CacheClaims

/-! ## Rate limiter (`rate_limiter.py`) -/

namespace RL

/-- `MINUTE_LIMIT`. -/
def MINUTE_LIMIT : Nat := 5

/-- `HOUR_LIMIT`. -/
def HOUR_LIMIT : Nat := 20

/-- `DAY_LIMIT`. -/
def DAY_LIMIT : Nat := 60

/-- `WHITELIST_IPS`. -/
def WHITELIST_IPS : List String := ["179.60.74.141", "127.0.0.1", "::1"]

/-- `_get_rate_limit_key`. -/
def rate_limit_key (ip window : String) : String :=
"rate_limit:ip:" ++ ip ++ ":" ++ window

/-- `_get_blacklist_key`. -/
def blacklist_key (ip : String) : String := "blacklist:ip:" ++ ip

/-- The store state seen by the rate limiter.  `counters` is the Redis
key space holding integer counters, `blacklisted` the blacklist flags;
`getFails`/`incrFails` say which store operations raise, so the fail-open
`except` branches can be exercised.  TTLs are elided: a state describes one
set of live windows. -/
structure KV where
  counters : String → Option Nat
  blacklisted : String → Bool
  getFails : String → Bool
  incrFails : String → Bool

/-- Write one counter key. -/
def setCounter (kv : KV) (k : String) (v : Nat) : KV :=
{ kv with counters := fun k' => if k' = k then some v else kv.counters k' }

/-- `_increment_counter` (lines 58-89): create at 1 when absent, increment
otherwise; on a store error return 1 (fail-open). -/
def increment_counter (kv : KV) (key : String) : Nat × KV :=
if kv.incrFails key then (1, kv)
else
  match kv.counters key with
  | none => (1, setCounter kv key 1)
  | some n => (n + 1, setCounter kv key (n + 1))

/-- `_get_counter` (lines 91-107): current counter value, 0 when absent or on
a store error. -/
def get_counter (kv : KV) (key : String) : Nat :=
if kv.getFails key then 0 else (kv.counters key).getD 0

/-- `_is_blacklisted` (lines 109-120): blacklist flag lookup, `false` on a
store error. -/
def is_blacklisted (kv : KV) (ip : String) : Bool :=
if kv.getFails (blacklist_key ip) then false else kv.blacklisted (blacklist_key ip)

/-- The decision dictionary returned by `check_rate_limit` (the nested
`limits` dictionary of the allowed branch is summarized by `currentCount`,
the new minute count). -/
structure RLDecision where
  allowed : Bool
  status : String
  limitType : Option String := none
  retryAfter : Option Nat := none
  currentCount : Option Nat := none
  limit : Option Nat := none
  error : Option String := none
deriving DecidableEq, Repr

/-- `check_rate_limit` (lines 136-229).  The client IP extraction from request
headers happens upstream; the model takes the IP directly.  Order follows the
code: whitelist, blacklist, read the three counters without incrementing, deny
on minute then hour then day, otherwise increment minute, hour, day (in that
order) and allow.  The pure reads are inlined at their uses, which repeats no
effects. -/
def check_rate_limit (ip : String) (kv : KV) : RLDecision × KV :=
if ip ∈ WHITELIST_IPS then ({ allowed := true, status := "whitelisted" }, kv)
else if is_blacklisted kv ip then
  ({ allowed := false, status := "blacklisted", retryAfter := some 3600,
     error := some "IP temporalmente bloqueada por exceso de consultas" }, kv)
else if get_counter kv (rate_limit_key ip "minute") ≥ MINUTE_LIMIT then
  ({ allowed := false, status := "rate_limited", limitType := some "minute",
     retryAfter := some 60,
     currentCount := some (get_counter kv (rate_limit_key ip "minute")),
     limit := some MINUTE_LIMIT,
     error := some "Debes esperar 1 minuto entre consultas" }, kv)
else if get_counter kv (rate_limit_key ip "hour") ≥ HOUR_LIMIT then
  ({ allowed := false, status := "rate_limited", limitType := some "hour",
     retryAfter := some 3600,
     currentCount := some (get_counter kv (rate_limit_key ip "hour")),
     limit := some HOUR_LIMIT,
     error := some "Máximo 20 consultas por hora alcanzado" }, kv)
else if get_counter kv (rate_limit_key ip "day") ≥ DAY_LIMIT then
  ({ allowed := false, status := "rate_limited", limitType := some "day",
     retryAfter := some 86400,
     currentCount := some (get_counter kv (rate_limit_key ip "day")),
     limit := some DAY_LIMIT,
     error := some "Máximo 60 consultas por día alcanzado" }, kv)
else
  ({ allowed := true, status := "allowed",
     currentCount := some (increment_counter kv (rate_limit_key ip "minute")).1 },
   (increment_counter
     (increment_counter
       (increment_counter kv (rate_limit_key ip "minute")).2
       (rate_limit_key ip "hour")).2
     (rate_limit_key ip "day")).2)

/-- The store with no counters, no blacklist entries and no failures. -/
def emptyKV : KV :=
{ counters := fun _ => none, blacklisted := fun _ => false,
  getFails := fun _ => false, incrFails := fun _ => false }

/-- State after `n` allowed checks for one client in the same windows: all
three window counters hold `n` (absent when `n = 0`), nothing else set. -/
def kvN (ip : String) (n : Nat) : KV :=
{ counters := fun k =>
    if n = 0 then none
    else if k = rate_limit_key ip "minute" ∨ k = rate_limit_key ip "hour"
            ∨ k = rate_limit_key ip "day" then some n
    else none,
  blacklisted := fun _ => false, getFails := fun _ => false,
  incrFails := fun _ => false }

/-- Iterate `check_rate_limit` `n` times, collecting the decisions. -/
def checkSeq (ip : String) (kv : KV) : Nat → List RLDecision × KV
| 0 => ([], kv)
| n + 1 =>
  ((checkSeq ip kv n).1 ++ [(check_rate_limit ip (checkSeq ip kv n).2).1],
   (check_rate_limit ip (checkSeq ip kv n).2).2)

/-- The decision dictionary of the `n`-th allowed call. -/
def allowedDec (n : Nat) : RLDecision :=
{ allowed := true, status := "allowed", currentCount := some n }

/-- The minute-window denial dictionary at count `n`. -/
def denyMinuteDec (n : Nat) : RLDecision :=
{ allowed := false, status := "rate_limited", limitType := some "minute",
  retryAfter := some 60, currentCount := some n, limit := some MINUTE_LIMIT,
  error := some "Debes esperar 1 minuto entre consultas" }

/-- Store whose three window counters for `ip` all sit exactly at their
limits (used to observe which window is checked first). -/
def kvAllLimits (ip : String) : KV :=
{ counters := fun k =>
    if k = rate_limit_key ip "minute" then some MINUTE_LIMIT
    else if k = rate_limit_key ip "hour" then some HOUR_LIMIT
    else if k = rate_limit_key ip "day" then some DAY_LIMIT
    else none,
  blacklisted := fun _ => false, getFails := fun _ => false,
  incrFails := fun _ => false }

theorem window_key_ne (ip : String) (w w' : String) (h : w.data ≠ w'.data) :
    rate_limit_key ip w ≠ rate_limit_key ip w' := by
  intro he
  apply h
  have hd := congrArg String.data he
  unfold rate_limit_key at hd
  simp only [String.data_append, List.append_assoc] at hd
  exact List.append_cancel_left (List.append_cancel_left (List.append_cancel_left hd))

theorem check_kvN_step (ip : String) (hip : ip ∉ WHITELIST_IPS) (n : Nat) (hn : n < 5) :
    check_rate_limit ip (kvN ip n) = (allowedDec (n + 1), kvN ip (n + 1)) := by
  have hmh := window_key_ne ip "minute" "hour" (by decide)
  have hmd := window_key_ne ip "minute" "day" (by decide)
  have hhd := window_key_ne ip "hour" "day" (by decide)
  unfold check_rate_limit
  rw [if_neg hip]
  rw [if_neg (by simp [is_blacklisted, kvN])]
  have hm : get_counter (kvN ip n) (rate_limit_key ip "minute") = n := by
    unfold get_counter kvN
    by_cases h0 : n = 0 <;> simp [h0]
  have hh : get_counter (kvN ip n) (rate_limit_key ip "hour") = n := by
    unfold get_counter kvN
    by_cases h0 : n = 0 <;> simp [h0]
  have hd : get_counter (kvN ip n) (rate_limit_key ip "day") = n := by
    unfold get_counter kvN
    by_cases h0 : n = 0 <;> simp [h0]
  rw [hm, hh, hd]
  rw [if_neg (show ¬ n ≥ MINUTE_LIMIT by unfold MINUTE_LIMIT; omega)]
  rw [if_neg (show ¬ n ≥ HOUR_LIMIT by unfold HOUR_LIMIT; omega)]
  rw [if_neg (show ¬ n ≥ DAY_LIMIT by unfold DAY_LIMIT; omega)]
  have e1 : increment_counter (kvN ip n) (rate_limit_key ip "minute")
      = (n + 1, setCounter (kvN ip n) (rate_limit_key ip "minute") (n + 1)) := by
    unfold increment_counter
    rw [if_neg (by simp [kvN])]
    have hcm : (kvN ip n).counters (rate_limit_key ip "minute")
        = if n = 0 then none else some n := by
      by_cases h0 : n = 0 <;> simp [kvN, h0]
    rw [hcm]
    by_cases h0 : n = 0
    · subst h0
      rfl
    · rw [if_neg h0]
  have e2 : increment_counter (setCounter (kvN ip n) (rate_limit_key ip "minute") (n + 1))
        (rate_limit_key ip "hour")
      = (n + 1, setCounter (setCounter (kvN ip n) (rate_limit_key ip "minute") (n + 1))
          (rate_limit_key ip "hour") (n + 1)) := by
    unfold increment_counter
    rw [if_neg (by simp [setCounter, kvN])]
    have hch : (setCounter (kvN ip n) (rate_limit_key ip "minute") (n + 1)).counters
          (rate_limit_key ip "hour") = if n = 0 then none else some n := by
      unfold setCounter
      simp only [if_neg (Ne.symm hmh)]
      by_cases h0 : n = 0 <;> simp [kvN, h0]
    rw [hch]
    by_cases h0 : n = 0
    · subst h0
      rfl
    · rw [if_neg h0]
  have e3 : increment_counter (setCounter (setCounter (kvN ip n)
          (rate_limit_key ip "minute") (n + 1)) (rate_limit_key ip "hour") (n + 1))
        (rate_limit_key ip "day")
      = (n + 1, setCounter (setCounter (setCounter (kvN ip n)
          (rate_limit_key ip "minute") (n + 1)) (rate_limit_key ip "hour") (n + 1))
          (rate_limit_key ip "day") (n + 1)) := by
    unfold increment_counter
    rw [if_neg (by simp [setCounter, kvN])]
    have hcd : (setCounter (setCounter (kvN ip n) (rate_limit_key ip "minute") (n + 1))
          (rate_limit_key ip "hour") (n + 1)).counters (rate_limit_key ip "day")
        = if n = 0 then none else some n := by
      unfold setCounter
      simp only [if_neg (Ne.symm hhd), if_neg (Ne.symm hmd)]
      by_cases h0 : n = 0 <;> simp [kvN, h0]
    rw [hcd]
    by_cases h0 : n = 0
    · subst h0
      rfl
    · rw [if_neg h0]
  simp only [e1, e2, e3]
  refine congrArg₂ Prod.mk rfl ?_
  unfold setCounter kvN
  congr 1
  funext k
  by_cases hk1 : k = rate_limit_key ip "day"
  · simp [hk1]
  · by_cases hk2 : k = rate_limit_key ip "hour"
    · simp [hk1, hk2]
    · by_cases hk3 : k = rate_limit_key ip "minute"
      · simp [hk1, hk2, hk3]
      · by_cases h0 : n = 0 <;> simp [hk1, hk2, hk3, h0]

theorem check_kvN_deny (ip : String) (hip : ip ∉ WHITELIST_IPS) :
    check_rate_limit ip (kvN ip 5) = (denyMinuteDec 5, kvN ip 5) := by
  unfold check_rate_limit
  rw [if_neg hip]
  rw [if_neg (by simp [is_blacklisted, kvN])]
  have hm : get_counter (kvN ip 5) (rate_limit_key ip "minute") = 5 := by
    simp [get_counter, kvN]
  rw [hm]
  rw [if_pos (by decide)]
  rfl

theorem checkSeq_closed (ip : String) (hip : ip ∉ WHITELIST_IPS) :
    ∀ n, n ≤ 5 →
      checkSeq ip emptyKV n
        = ((List.range n).map (fun i => allowedDec (i + 1)), kvN ip n) := by
  intro n
  induction n with
  | zero =>
    intro _
    rfl
  | succ m ih =>
    intro hm
    have hrec := ih (by omega)
    show checkSeq ip emptyKV (m + 1) = _
    unfold checkSeq
    simp only [hrec, check_kvN_step ip hip m (by omega)]
    rw [List.range_succ, List.map_append]
    rfl

end RL

section RLClaims

/-- Claim C3: a client that is neither whitelisted nor blacklisted, starting
from fresh windows, is allowed on each of its first 5 checks and denied on the
6th with `limit_type = "minute"` and `retry_after = 60`; moreover when all
three window counters are simultaneously at their limits the reported reason
is `"minute"`, showing the minute window is checked before hour and day. -/
theorem claim_C3 (ip : String) (hip : ip ∉ RL.WHITELIST_IPS) :
    ((RL.checkSeq ip RL.emptyKV 6).1.map (fun d => d.allowed))
        = [true, true, true, true, true, false] ∧
    (RL.checkSeq ip RL.emptyKV 6).1.getLast? = some (RL.denyMinuteDec 5) ∧
    ((RL.check_rate_limit ip (RL.kvAllLimits ip)).1.limitType = some "minute" ∧
      (RL.check_rate_limit ip (RL.kvAllLimits ip)).1.allowed = false) := by
  have h5 := RL.checkSeq_closed ip hip 5 (by omega)
  have h6 : RL.checkSeq ip RL.emptyKV 6
      = (((List.range 5).map (fun i => RL.allowedDec (i + 1))) ++ [RL.denyMinuteDec 5],
         RL.kvN ip 5) := by
    show RL.checkSeq ip RL.emptyKV (5 + 1) = _
    unfold RL.checkSeq
    simp only [h5, RL.check_kvN_deny ip hip]
  refine ⟨?_, ?_, ?_⟩
  · rw [h6]
    rfl
  · rw [h6]
    rfl
  · have hlim : RL.check_rate_limit ip (RL.kvAllLimits ip)
        = (RL.denyMinuteDec RL.MINUTE_LIMIT, RL.kvAllLimits ip) := by
      unfold RL.check_rate_limit
      rw [if_neg hip]
      rw [if_neg (by simp [RL.is_blacklisted, RL.kvAllLimits])]
      have hm : RL.get_counter (RL.kvAllLimits ip) (RL.rate_limit_key ip "minute")
          = RL.MINUTE_LIMIT := by
        simp [RL.get_counter, RL.kvAllLimits]
      rw [hm]
      rw [if_pos (by decide)]
      rfl
    rw [hlim]
    exact ⟨rfl, rfl⟩

/-- Concrete instantiation of C3 for the client `"203.0.113.7"`. -/
theorem claim_C3_witness :
    ("203.0.113.7" ∉ RL.WHITELIST_IPS) ∧
    ((RL.checkSeq "203.0.113.7" RL.emptyKV 6).1.map (fun d => d.allowed))
        = [true, true, true, true, true, false] := by
  have hip : "203.0.113.7" ∉ RL.WHITELIST_IPS := by decide
  exact ⟨hip, (claim_C3 "203.0.113.7" hip).1⟩

/-- Store for the C7 counterexample: the blacklist lookup for `"203.0.113.9"`
raises, while the minute counter reads back 5 successfully. -/
def kvBlacklistFailFull : RL.KV :=
{ counters := fun k => if k = RL.rate_limit_key "203.0.113.9" "minute"
    then some 5 else none,
  blacklisted := fun _ => false,
  getFails := fun k => k == RL.blacklist_key "203.0.113.9",
  incrFails := fun _ => false }

/-- Claim C7 (counterexample): a store error during the blacklist lookup does
not make `check_rate_limit` return allowed — with the minute counter
legitimately at its limit the request is still denied, so "any store error
during any step implies an allowed result" is false as stated. -/
theorem claim_C7_counterexample :
    kvBlacklistFailFull.getFails (RL.blacklist_key "203.0.113.9") = true ∧
    (RL.check_rate_limit "203.0.113.9" kvBlacklistFailFull).1.allowed = false ∧
    (RL.check_rate_limit "203.0.113.9" kvBlacklistFailFull).1.limitType
      = some "minute" := by
  refine ⟨?_, ?_, ?_⟩ <;> rfl

/-- Claim C7 (amended): every failing store step is itself treated fail-open —
a failing blacklist lookup reads as not blacklisted, a failing counter read as
0, a failing increment still allows — so when every store operation fails,
`check_rate_limit` returns allowed; a store failure alone never produces a
denial (a denial requires successfully read counters or blacklist flags). -/
theorem claim_C7_amended (ip : String) (kv : RL.KV)
    (hget : ∀ k, kv.getFails k = true) (hincr : ∀ k, kv.incrFails k = true) :
    (RL.check_rate_limit ip kv).1.allowed = true := by
  unfold RL.check_rate_limit
  have hI : ∀ k, RL.increment_counter kv k = (1, kv) := by
    intro k
    unfold RL.increment_counter
    rw [if_pos (hincr k)]
  have hc : ∀ k, RL.get_counter kv k = 0 := by
    intro k
    unfold RL.get_counter
    rw [if_pos (hget k)]
  by_cases hip : ip ∈ RL.WHITELIST_IPS
  · rw [if_pos hip]
  · rw [if_neg hip]
    have hbl : RL.is_blacklisted kv ip = false := by
      unfold RL.is_blacklisted
      rw [if_pos (hget _)]
    rw [if_neg (by simp [hbl])]
    simp only [hc, hI]
    rfl

/-- Concrete instantiation of C7 (amended): with a store failing on every
operation, a non-whitelisted client is allowed. -/
theorem claim_C7_amended_witness :
    (RL.check_rate_limit "203.0.113.8"
      { counters := fun _ => none, blacklisted := fun _ => false,
        getFails := fun _ => true, incrFails := fun _ => true }).1.allowed = true :=
  claim_C7_amended "203.0.113.8" _ (fun _ => rfl) (fun _ => rfl)

end RLClaims

/-! ## Web application / orchestrator (`web_app.py`) -/

namespace Web

/-- The `unwanted_phrases` list of `is_valid_animal` (lines 73-78), in source
order (order matters: replacements are applied sequentially). -/
def unwantedPhrases : List String :=
["como el ", "como la ", "el ", "la ", "un ", "una ",
 "Busca información sobre animales reales como el ",
 "Busca información sobre el ", "Busca información sobre ",
 "información sobre ", "animales reales como "]

/-- Suggestion parsing inside `is_valid_animal` (lines 58-88): take the part
before `" - "`, strip brackets, split on commas, clean each piece and keep the
plausible animal names. -/
def parseSuggestions (suggestions_text : String) : List String :=
if suggestions_text = "" then []
else
  let clean_text :=
    match findSub " - ".data suggestions_text.data with
    | some i => (⟨suggestions_text.data.take i⟩ : String)
    | none => suggestions_text
  let clean_text : String := ⟨stripSet ['[', ']'] clean_text.data⟩
  let raw_suggestions := splitOnChar ',' clean_text.data
  raw_suggestions.foldl (fun acc sug =>
    let c1 : String := ⟨stripSet ['[', ']', '\"', '\x27'] (pyStripList sug)⟩
    let c2 := unwantedPhrases.foldl (fun s ph => replaceAll s ph "") c1
    let c3 := pyStrip (replaceAll (replaceAll c2 "\"" "") "\x27" "")
    if c3 ≠ "" ∧ 1 < (pyStrip c3).data.length
        ∧ ¬ (["busca", "información", "sobre"].any
              (fun x => (findSub x.data (lowerStr c3).data).isSome)) then
      acc ++ [pyStrip c3]
    else acc) []

/-- `is_valid_animal` (lines 36-98): look for the `**VALIDO:**` marker; `SI`
means valid, `NO` means invalid with a parsed reason and suggestions, anything
else (or a missing marker) is treated as an unexpected response and is
invalid.  Returns `(is_valid, reason, suggestions)`. -/
def is_valid_animal (animal_info : String) : Bool × String × List String :=
match captureAfter "**VALIDO:**" animal_info with
| none => (false, "Respuesta inesperada del sistema", [])
| some cap =>
  let validity := upperStr (pyStrip cap)
  if validity = "SI" then (true, "", [])
  else if validity = "NO" then
    let reason := ((captureAfter "**Razón:**" animal_info).map pyStrip).getD
      "No es un animal válido"
    let suggestions_text := ((captureAfter "**Sugerencias:**" animal_info).map pyStrip).getD ""
    (false, reason, parseSuggestions suggestions_text)
  else (false, "Respuesta inesperada del sistema", [])

/-- `extract_english_name` (lines 100-121): capture after `**Nombre_EN:**`,
strip, delete the characters `*`, `[`, `]`, `_`, strip again; `""` when the
marker is absent. -/
def extract_english_name (animal_info : String) : String :=
match captureAfter "**Nombre_EN:**" animal_info with
| none => ""
| some cap =>
  pyStrip ⟨((pyStrip cap).data.filter (fun c => !(['*', '[', ']', '_'].contains c)))⟩

/-- Lines 364-367: the name used for image generation — the extracted English
name, or the original query when extraction yields `""`. -/
def english_for (content fallbackName : String) : String :=
if extract_english_name content = "" then fallbackName else extract_english_name content

/-- Lines 329-338: the user-facing message stored when validation rejects the
query. -/
def invalid_animal_message (animal reason : String) (suggestions : List String) : String :=
  let m0 := "🚫 \x27" ++ animal ++ "\x27 no es un animal válido"
  let m1 := if reason ≠ "" then m0 ++ ": " ++ reason else m0
  let m2 := if suggestions ≠ [] then
      m1 ++ "\n\n💡 ¿Quizás buscabas uno de estos?: "
        ++ String.intercalate ", " (suggestions.take 3)
    else m1
  m2 ++ "\n\n🔍 Intenta con el nombre de un animal real (ej: león, elefante, águila)"

/-- Lines 140-155: the user-facing message for a rate-limited submission. -/
def user_rate_message (d : RL.RLDecision) : String :=
  let limit_type := d.limitType.getD "unknown"
  let retry_after := d.retryAfter.getD 60
  if limit_type = "minute" then
    "⏱️ Debes esperar 1 minuto entre consultas. Por favor, espera antes de intentar nuevamente."
  else if limit_type = "hour" then
    "📊 Has alcanzado el límite de 20 consultas por hora. Inténtalo en "
      ++ toString (retry_after / 60) ++ " minutos."
  else if limit_type = "day" then
    "📅 Has alcanzado el límite de 60 consultas diarias. Inténtalo mañana."
  else if d.status = "blacklisted" then
    "🚫 IP temporalmente bloqueada por exceso de consultas. Inténtalo más tarde."
  else d.error.getD "Rate limit exceeded"

/-- A session record (`session_data` dictionaries).  Timestamps and the
auxiliary keys `rate_limit_info`, `invalid_reason`, `suggestions`, `cached`,
`cached_at` carry no claim content and are elided; `Option` models JSON
`null`. -/
structure Session where
  animal : String
  status : String
  info : Option String := none
  image : Option String := none
  errors : List String := []
  fromCache : Bool := false
deriving DecidableEq, Repr

/-- Result of the information provider
(`animal_info_service.get_animal_info_async`). -/
structure InfoRes where
  success : Bool
  content : String
  error : String := ""
deriving DecidableEq, Repr

/-- Result of the image provider
(`image_generation_service.generate_image_async`); the timeout and exception
wrappers of lines 379-399 turn into `success = false` results, which is how
they are consumed. -/
structure ImageRes where
  success : Bool
  image_data_url : String := ""
  error : String := ""
deriving DecidableEq, Repr

/-- The two external providers as pure functions of the query. -/
structure Providers where
  infoResult : String → InfoRes
  imageResult : String → ImageRes

/-- Observable events of one request/processing run: the rate-limit check of
the submit handler, the cache lookup, the analytics tracking, the two
provider invocations and the validation step. -/
inductive Ev where
| rateCheck : Ev
| cacheCheck : Ev
| trackSearch : Ev
| infoCall (q : String) : Ev
| validate : Ev
| imageCall (q : String) : Ev
deriving DecidableEq, Repr

/-- Is the event a provider invocation? -/
def isProviderCall : Ev → Bool
| .infoCall _ => true
| .imageCall _ => true
| _ => false

/-- Number of provider invocations in a trace. -/
def providerCalls (tr : List Ev) : Nat := (tr.filter isProviderCall).length

/-- Number of image-provider invocations in a trace. -/
def imageCalls (tr : List Ev) : Nat :=
(tr.filter (fun e => match e with | .imageCall _ => true | _ => false)).length

/-- Worker for `validationOrdered`: `si` records whether an info fetch has
occurred, `sv` whether a validation has occurred. -/
def validationOrderedAux (si sv : Bool) : List Ev → Bool
| [] => true
| .infoCall _ :: r => validationOrderedAux true sv r
| .validate :: r => si && validationOrderedAux si true r
| .imageCall _ :: r => sv && validationOrderedAux si sv r
| _ :: r => validationOrderedAux si sv r

/-- Every validation event is preceded by an info fetch, and every image fetch
is preceded by a validation. -/
def validationOrdered (tr : List Ev) : Bool := validationOrderedAux false false tr

/-- Global state: the cache key space, the session key space, the rate-limiter
store, a log of every session record written, and the clock value used for
`cached_at` stamps.  The three key spaces use disjoint Redis prefixes
(`cache:…`, `session:…`, `rate_limit:…`/`blacklist:…`), so they are modelled
as separate components. -/
structure World where
  cache : Cache.CacheStore
  sessions : String → Option Session
  rl : RL.KV
  writes : List Session
  now : Nat

/-- `session_service.create_session` / `update_session` (TTL refresh elided;
both always succeed in the model, as they do under the in-memory fallback).
The written record is also appended to the audit log `writes`. -/
def writeSession (w : World) (sid : String) (s : Session) : World :=
{ w with sessions := fun k => if k = sid then some s else w.sessions k,
         writes := w.writes ++ [s] }

theorem writeSession_sessions_self (w : World) (sid : String) (s : Session) :
    (writeSession w sid s).sessions sid = some s := by
  simp [writeSession]

/-- Result of the `POST /research` handler. -/
inductive SubmitRes where
| badRequest : SubmitRes
| page (sid : String) : SubmitRes
deriving DecidableEq, Repr

/-- `research_animal` (lines 128-212): reject empty queries, run the
rate-limit check, store either a `rate_imited` error session or a fresh
`processing` session, return the result page.  The session id is generated
upstream (`uuid.uuid4`) and is a parameter. -/
def research_animal (ip animal sid : String) (w : World) : SubmitRes × World × List Ev :=
if pyStrip animal = "" then (.badRequest, w, [])
else if (RL.check_rate_limit ip w.rl).1.allowed = false then
  (.page sid,
   writeSession { w with rl := (RL.check_rate_limit ip w.rl).2 } sid
     { animal := animal, status := "rate_limited", info := none, image := none,
       errors := [user_rate_message (RL.check_rate_limit ip w.rl).1] },
   [Ev.rateCheck])
else
  (.page sid,
   writeSession { w with rl := (RL.check_rate_limit ip w.rl).2 } sid
     { animal := animal, status := "processing", info := none, image := none,
       errors := [] },
   [Ev.rateCheck])

/-- The `try` body of `process_animal_research_sync` (lines 269-438).  Returns
the world and event trace together with `some msg` when an exception escapes
the body — the only such exception in the model is the `KeyError` raised by
`cached_data['image']` on a partial cache hit (its `str()` is `'image'`,
quotes included).  Session re-reads mirror the code; under the Redis backend
`get_session` returns the last stored record. -/
def process_try (md5hex : String → String) (env : Providers) (sid animal : String)
    (w : World) : (World × List Ev) × Option String :=
match w.sessions sid with
| none => ((w, []), none)
| some sd =>
  match Cache.get_complete_cached_animal md5hex animal w.cache with
  | some cd =>
    match cd.image with
    | none => ((w, [Ev.cacheCheck]), some "\x27image\x27")
    | some img =>
      ((writeSession w sid
          { sd with
            status := "completed",
            info := some cd.info,
            image := some img,
            fromCache := true },
        [Ev.cacheCheck, Ev.trackSearch]), none)
  | none =>
    let w1 := writeSession w sid { sd with status := "getting_info" }
    let ir := env.infoResult animal
    match w1.sessions sid with
    | none => ((w1, [Ev.cacheCheck, Ev.trackSearch, Ev.infoCall animal]), none)
    | some sd2 =>
      if ir.success = false then
        ((writeSession w1 sid
            { sd2 with
              status := "error",
              errors := sd2.errors ++ ["Info error: " ++ ir.error] },
          [Ev.cacheCheck, Ev.trackSearch, Ev.infoCall animal]), none)
      else
        let v := is_valid_animal ir.content
        if v.1 = false then
          ((writeSession w1 sid
              { sd2 with
                status := "invalid_animal",
                errors := [invalid_animal_message animal v.2.1 v.2.2] },
            [Ev.cacheCheck, Ev.trackSearch, Ev.infoCall animal, Ev.validate]), none)
        else
          let en := english_for ir.content animal
          let w2 := writeSession w1 sid
            { sd2 with info := some ir.content, status := "generating_image" }
          let imr := env.imageResult en
          match w2.sessions sid with
          | none =>
            ((w2, [Ev.cacheCheck, Ev.trackSearch, Ev.infoCall animal, Ev.validate,
                   Ev.imageCall en]), none)
          | some sd5 =>
            if imr.success = false then
              ((writeSession w2 sid
                  { sd5 with
                    status := "error",
                    errors := sd5.errors ++ ["Image error: " ++ imr.error] },
                [Ev.cacheCheck, Ev.trackSearch, Ev.infoCall animal, Ev.validate,
                 Ev.imageCall en]), none)
            else
              let sd6 := { sd5 with image := some imr.image_data_url }
              let c1 := Cache.cache_animal_info md5hex animal (sd6.info.getD "") en
                w.now w2.cache
              let c2 := Cache.cache_animal_image md5hex animal imr.image_data_url en
                w.now c1
              let w3 : World := { w2 with cache := c2 }
              ((writeSession w3 sid { sd6 with status := "completed" },
                [Ev.cacheCheck, Ev.trackSearch, Ev.infoCall animal, Ev.validate,
                 Ev.imageCall en]), none)

/-- `process_animal_research_sync` (lines 267-447): the `try` body plus the
outer `except` handler, which re-reads the session, marks it `error` and
appends the exception text. -/
def process_animal_research_sync (md5hex : String → String) (env : Providers)
    (sid animal : String) (w : World) : World × List Ev :=
match process_try md5hex env sid animal w with
| (r, none) => r
| ((w', tr), some msg) =>
  match w'.sessions sid with
  | some sd =>
    (writeSession w' sid
      { sd with status := "error", errors := sd.errors ++ ["Unexpected error: " ++ msg] },
     tr)
  | none => (w', tr)

/-- Result of the `GET /status/{session_id}` handler. -/
inductive PollRes where
| notFound : PollRes
| lost : PollRes
| record (s : Session) : PollRes
deriving DecidableEq, Repr

/-- `get_status` (lines 214-265): 404 on a missing session; when the stored
status is `processing`, run the pipeline synchronously and return the updated
record (500, modelled `lost`, if the session vanished); otherwise return the
record as stored.  TTL extension is a no-op in the model, and the
exception handler of lines 246-252 is unreachable because
`process_animal_research_sync` catches everything internally. -/
def get_status (md5hex : String → String) (env : Providers) (sid : String)
    (w : World) : PollRes × World × List Ev :=
match w.sessions sid with
| none => (.notFound, w, [])
| some sd =>
  if sd.status = "processing" then
    match process_animal_research_sync md5hex env sid sd.animal w with
    | (w', tr) =>
      match w'.sessions sid with
      | none => (.lost, w', tr)
      | some sd' => (.record sd', w', tr)
  else (.record sd, w, [])

theorem process_eq_missing (md5hex : String → String) (env : Providers)
    (sid animal : String) (w : World) (hs : w.sessions sid = none) :
    process_animal_research_sync md5hex env sid animal w = (w, []) := by
  unfold process_animal_research_sync process_try
  rw [hs]

theorem process_eq_hit (md5hex : String → String) (env : Providers)
    (sid animal : String) (w : World) (sd : Session) (cd : Cache.CompleteCacheHit)
    (img : String) (hs : w.sessions sid = some sd)
    (hc : Cache.get_complete_cached_animal md5hex animal w.cache = some cd)
    (himg : cd.image = some img) :
    process_animal_research_sync md5hex env sid animal w
      = (writeSession w sid
          { sd with
            status := "completed",
            info := some cd.info,
            image := some img,
            fromCache := true },
         [Ev.cacheCheck, Ev.trackSearch]) := by
  unfold process_animal_research_sync process_try
  rw [hs]
  simp only []
  rw [hc]
  simp only []
  rw [himg]

theorem process_eq_partial (md5hex : String → String) (env : Providers)
    (sid animal : String) (w : World) (sd : Session) (cd : Cache.CompleteCacheHit)
    (hs : w.sessions sid = some sd)
    (hc : Cache.get_complete_cached_animal md5hex animal w.cache = some cd)
    (himg : cd.image = none) :
    process_animal_research_sync md5hex env sid animal w
      = (writeSession w sid
          { sd with
            status := "error",
            errors := sd.errors ++ ["Unexpected error: \x27image\x27"] },
         [Ev.cacheCheck]) := by
  unfold process_animal_research_sync process_try
  rw [hs]
  simp only []
  rw [hc]
  simp only []
  rw [himg]
  simp only []
  rw [hs]
  rfl

theorem process_eq_info_fail (md5hex : String → String) (env : Providers)
    (sid animal : String) (w : World) (sd : Session)
    (hs : w.sessions sid = some sd)
    (hc : Cache.get_complete_cached_animal md5hex animal w.cache = none)
    (hsucc : (env.infoResult animal).success = false) :
    process_animal_research_sync md5hex env sid animal w
      = (writeSession (writeSession w sid { sd with status := "getting_info" }) sid
          { sd with
            status := "error",
            errors := sd.errors ++ ["Info error: " ++ (env.infoResult animal).error] },
         [Ev.cacheCheck, Ev.trackSearch, Ev.infoCall animal]) := by
  unfold process_animal_research_sync process_try
  rw [hs]
  simp only []
  rw [hc]
  simp only [writeSession_sessions_self]
  rw [hsucc]
  rfl

theorem process_eq_invalid (md5hex : String → String) (env : Providers)
    (sid animal : String) (w : World) (sd : Session)
    (hs : w.sessions sid = some sd)
    (hc : Cache.get_complete_cached_animal md5hex animal w.cache = none)
    (hsucc : (env.infoResult animal).success = true)
    (hv : (is_valid_animal (env.infoResult animal).content).1 = false) :
    process_animal_research_sync md5hex env sid animal w
      = (writeSession (writeSession w sid { sd with status := "getting_info" }) sid
          { sd with
            status := "invalid_animal",
            errors := [invalid_animal_message animal
              (is_valid_animal (env.infoResult animal).content).2.1
              (is_valid_animal (env.infoResult animal).content).2.2] },
         [Ev.cacheCheck, Ev.trackSearch, Ev.infoCall animal, Ev.validate]) := by
  unfold process_animal_research_sync process_try
  rw [hs]
  simp only []
  rw [hc]
  simp only [writeSession_sessions_self]
  rw [hsucc, hv]
  rfl

theorem process_eq_image_fail (md5hex : String → String) (env : Providers)
    (sid animal : String) (w : World) (sd : Session)
    (hs : w.sessions sid = some sd)
    (hc : Cache.get_complete_cached_animal md5hex animal w.cache = none)
    (hsucc : (env.infoResult animal).success = true)
    (hv : (is_valid_animal (env.infoResult animal).content).1 = true)
    (hi : (env.imageResult (english_for (env.infoResult animal).content animal)).success
      = false) :
    process_animal_research_sync md5hex env sid animal w
      = (writeSession
          (writeSession (writeSession w sid { sd with status := "getting_info" }) sid
            { sd with
              info := some (env.infoResult animal).content,
              status := "generating_image" }) sid
          { sd with
            info := some (env.infoResult animal).content,
            status := "error",
            errors := sd.errors ++ ["Image error: "
              ++ (env.imageResult
                    (english_for (env.infoResult animal).content animal)).error] },
         [Ev.cacheCheck, Ev.trackSearch, Ev.infoCall animal, Ev.validate,
          Ev.imageCall (english_for (env.infoResult animal).content animal)]) := by
  unfold process_animal_research_sync process_try
  rw [hs]
  simp only []
  rw [hc]
  simp only [writeSession_sessions_self]
  rw [hsucc, hv, hi]
  rfl

theorem process_eq_success (md5hex : String → String) (env : Providers)
    (sid animal : String) (w : World) (sd : Session)
    (hs : w.sessions sid = some sd)
    (hc : Cache.get_complete_cached_animal md5hex animal w.cache = none)
    (hsucc : (env.infoResult animal).success = true)
    (hv : (is_valid_animal (env.infoResult animal).content).1 = true)
    (hi : (env.imageResult (english_for (env.infoResult animal).content animal)).success
      = true) :
    process_animal_research_sync md5hex env sid animal w
      = (writeSession
          { (writeSession (writeSession w sid { sd with status := "getting_info" }) sid
              { sd with
                info := some (env.infoResult animal).content,
                status := "generating_image" }) with
            cache := Cache.cache_animal_image md5hex animal
              (env.imageResult
                (english_for (env.infoResult animal).content animal)).image_data_url
              (english_for (env.infoResult animal).content animal) w.now
              (Cache.cache_animal_info md5hex animal (env.infoResult animal).content
                (english_for (env.infoResult animal).content animal) w.now w.cache) }
          sid
          { sd with
            info := some (env.infoResult animal).content,
            status := "completed",
            image := some (env.imageResult
              (english_for (env.infoResult animal).content animal)).image_data_url },
         [Ev.cacheCheck, Ev.trackSearch, Ev.infoCall animal, Ev.validate,
          Ev.imageCall (english_for (env.infoResult animal).content animal)]) := by
  unfold process_animal_research_sync process_try
  rw [hs]
  simp only []
  rw [hc]
  simp only [writeSession_sessions_self]
  rw [hsucc, hv, hi]
  rfl

/-- Exhaustive case analysis of one processing run: missing session, complete
cache hit, partial cache hit (the `KeyError` path), info-provider failure,
validation rejection, image-provider failure, and full success, each with the
exact resulting world and event trace. -/
theorem process_cases (md5hex : String → String) (env : Providers) (sid animal : String)
    (w : World) :
    (w.sessions sid = none
      ∧ process_animal_research_sync md5hex env sid animal w = (w, []))
    ∨ (∃ sd cd img, w.sessions sid = some sd
        ∧ Cache.get_complete_cached_animal md5hex animal w.cache = some cd
        ∧ cd.image = some img
        ∧ process_animal_research_sync md5hex env sid animal w
            = (writeSession w sid
                { sd with
                  status := "completed",
                  info := some cd.info,
                  image := some img,
                  fromCache := true },
               [Ev.cacheCheck, Ev.trackSearch]))
    ∨ (∃ sd cd, w.sessions sid = some sd
        ∧ Cache.get_complete_cached_animal md5hex animal w.cache = some cd
        ∧ cd.image = none
        ∧ process_animal_research_sync md5hex env sid animal w
            = (writeSession w sid
                { sd with
                  status := "error",
                  errors := sd.errors ++ ["Unexpected error: \x27image\x27"] },
               [Ev.cacheCheck]))
    ∨ (∃ sd, w.sessions sid = some sd
        ∧ Cache.get_complete_cached_animal md5hex animal w.cache = none
        ∧ (env.infoResult animal).success = false
        ∧ process_animal_research_sync md5hex env sid animal w
            = (writeSession (writeSession w sid { sd with status := "getting_info" }) sid
                { sd with
                  status := "error",
                  errors := sd.errors ++ ["Info error: " ++ (env.infoResult animal).error] },
               [Ev.cacheCheck, Ev.trackSearch, Ev.infoCall animal]))
    ∨ (∃ sd, w.sessions sid = some sd
        ∧ Cache.get_complete_cached_animal md5hex animal w.cache = none
        ∧ (env.infoResult animal).success = true
        ∧ (is_valid_animal (env.infoResult animal).content).1 = false
        ∧ process_animal_research_sync md5hex env sid animal w
            = (writeSession (writeSession w sid { sd with status := "getting_info" }) sid
                { sd with
                  status := "invalid_animal",
                  errors := [invalid_animal_message animal
                    (is_valid_animal (env.infoResult animal).content).2.1
                    (is_valid_animal (env.infoResult animal).content).2.2] },
               [Ev.cacheCheck, Ev.trackSearch, Ev.infoCall animal, Ev.validate]))
    ∨ (∃ sd, w.sessions sid = some sd
        ∧ Cache.get_complete_cached_animal md5hex animal w.cache = none
        ∧ (env.infoResult animal).success = true
        ∧ (is_valid_animal (env.infoResult animal).content).1 = true
        ∧ (env.imageResult (english_for (env.infoResult animal).content animal)).success
            = false
        ∧ process_animal_research_sync md5hex env sid animal w
            = (writeSession
                (writeSession (writeSession w sid { sd with status := "getting_info" }) sid
                  { sd with
                    info := some (env.infoResult animal).content,
                    status := "generating_image" }) sid
                { sd with
                  info := some (env.infoResult animal).content,
                  status := "error",
                  errors := sd.errors ++ ["Image error: "
                    ++ (env.imageResult
                          (english_for (env.infoResult animal).content animal)).error] },
               [Ev.cacheCheck, Ev.trackSearch, Ev.infoCall animal, Ev.validate,
                Ev.imageCall (english_for (env.infoResult animal).content animal)]))
    ∨ (∃ sd, w.sessions sid = some sd
        ∧ Cache.get_complete_cached_animal md5hex animal w.cache = none
        ∧ (env.infoResult animal).success = true
        ∧ (is_valid_animal (env.infoResult animal).content).1 = true
        ∧ (env.imageResult (english_for (env.infoResult animal).content animal)).success
            = true
        ∧ process_animal_research_sync md5hex env sid animal w
            = (writeSession
                { (writeSession (writeSession w sid { sd with status := "getting_info" }) sid
                    { sd with
                      info := some (env.infoResult animal).content,
                      status := "generating_image" }) with
                  cache := Cache.cache_animal_image md5hex animal
                    (env.imageResult
                      (english_for (env.infoResult animal).content animal)).image_data_url
                    (english_for (env.infoResult animal).content animal) w.now
                    (Cache.cache_animal_info md5hex animal (env.infoResult animal).content
                      (english_for (env.infoResult animal).content animal) w.now w.cache) }
                sid
                { sd with
                  info := some (env.infoResult animal).content,
                  status := "completed",
                  image := some (env.imageResult
                    (english_for (env.infoResult animal).content animal)).image_data_url },
               [Ev.cacheCheck, Ev.trackSearch, Ev.infoCall animal, Ev.validate,
                Ev.imageCall (english_for (env.infoResult animal).content animal)])) := by
  cases hs : w.sessions sid with
  | none => exact Or.inl ⟨rfl, process_eq_missing md5hex env sid animal w hs⟩
  | some sd =>
    cases hc : Cache.get_complete_cached_animal md5hex animal w.cache with
    | some cd =>
      cases himg : cd.image with
      | none =>
        exact Or.inr (Or.inr (Or.inl ⟨sd, cd, rfl, rfl, himg,
          process_eq_partial md5hex env sid animal w sd cd hs hc himg⟩))
      | some img =>
        exact Or.inr (Or.inl ⟨sd, cd, img, rfl, rfl, himg,
          process_eq_hit md5hex env sid animal w sd cd img hs hc himg⟩)
    | none =>
      rcases Bool.eq_false_or_eq_true (env.infoResult animal).success with hsucc | hsucc
      · rcases Bool.eq_false_or_eq_true
            (is_valid_animal (env.infoResult animal).content).1 with hv | hv
        · rcases Bool.eq_false_or_eq_true
              (env.imageResult
                (english_for (env.infoResult animal).content animal)).success with hi | hi
          · exact Or.inr (Or.inr (Or.inr (Or.inr (Or.inr (Or.inr
              ⟨sd, rfl, rfl, hsucc, hv, hi,
               process_eq_success md5hex env sid animal w sd hs hc hsucc hv hi⟩)))))
          · exact Or.inr (Or.inr (Or.inr (Or.inr (Or.inr (Or.inl
              ⟨sd, rfl, rfl, hsucc, hv, hi,
               process_eq_image_fail md5hex env sid animal w sd hs hc hsucc hv hi⟩)))))
        · exact Or.inr (Or.inr (Or.inr (Or.inr (Or.inl ⟨sd, rfl, rfl, hsucc, hv,
            process_eq_invalid md5hex env sid animal w sd hs hc hsucc hv⟩))))
      · exact Or.inr (Or.inr (Or.inr (Or.inl ⟨sd, rfl, rfl, hsucc,
          process_eq_info_fail md5hex env sid animal w sd hs hc hsucc⟩)))

/-- The session-record invariant of claim C5: a completed session carries both
payloads, an error-like session carries at least one error message. -/
def sessionInv (s : Session) : Prop :=
(s.status = "completed" → s.info.isSome = true ∧ s.image.isSome = true) ∧
(s.status ∈ (["error", "invalid_animal", "invalid_input", "rate_limited"] : List String) →
  s.errors ≠ [])

/-- The seven status values the code actually stores. -/
def statusValues : List String :=
["processing", "getting_info", "generating_image", "completed", "error",
 "invalid_animal", "rate_limited"]

/-- The empty global state. -/
def emptyWorld : World :=
{ cache := Cache.emptyCache, sessions := fun _ => none, rl := RL.emptyKV,
  writes := [], now := 0 }

/-- A provider pair whose info response is a valid animal. -/
def envValid : Providers :=
{ infoResult := fun _ =>
    { success := true,
      content := "**VALIDO:** SI\n**Nombre_EN:** Lion\nGran felino africano" },
  imageResult := fun _ =>
    { success := true, image_data_url := "data:image/png;base64,AAA" } }

/-- A provider pair whose info response marks validity `NO`. -/
def envInvalid : Providers :=
{ infoResult := fun _ =>
    { success := true,
      content := "**VALIDO:** NO\n**Razón:** Es un personaje ficticio\n**Sugerencias:** [pika, raton]" },
  imageResult := fun _ =>
    { success := true, image_data_url := "data:image/png;base64,AAA" } }

/-- Claim C2: in every processing run, validation happens only after the info
fetch and every image fetch happens only after validation; and whenever
`is_valid_animal` rejects the info-provider response, the image provider is
never invoked in that run. -/
theorem claim_C2 (md5hex : String → String) (env : Providers) (sid animal : String)
    (w : World) :
    validationOrdered (process_animal_research_sync md5hex env sid animal w).2 = true ∧
    ((is_valid_animal (env.infoResult animal).content).1 = false →
      imageCalls (process_animal_research_sync md5hex env sid animal w).2 = 0) := by
  rcases process_cases md5hex env sid animal w with
    ⟨_, hP⟩ | ⟨sd, cd, img, _, _, _, hP⟩ | ⟨sd, cd, _, _, _, hP⟩ | ⟨sd, _, _, _, hP⟩
    | ⟨sd, _, _, _, _, hP⟩ | ⟨sd, _, _, _, hv, _, hP⟩ | ⟨sd, _, _, _, hv, _, hP⟩
  · rw [hP]
    exact ⟨rfl, fun _ => rfl⟩
  · rw [hP]
    exact ⟨rfl, fun _ => rfl⟩
  · rw [hP]
    exact ⟨rfl, fun _ => rfl⟩
  · rw [hP]
    exact ⟨rfl, fun _ => rfl⟩
  · rw [hP]
    exact ⟨rfl, fun _ => rfl⟩
  · rw [hP]
    refine ⟨rfl, fun h => ?_⟩
    rw [hv] at h
    exact Bool.noConfusion h
  · rw [hP]
    refine ⟨rfl, fun h => ?_⟩
    rw [hv] at h
    exact Bool.noConfusion h

/-- Concrete instantiation of C2: a `pikachu` query rejected by validation
triggers no image-provider call. -/
theorem claim_C2_witness :
    (is_valid_animal (envInvalid.infoResult "pikachu").content).1 = false ∧
    imageCalls (process_animal_research_sync idHash envInvalid "sid-1" "pikachu"
      { emptyWorld with
        sessions := fun k => if k = "sid-1"
          then some { animal := "pikachu", status := "processing" } else none }).2 = 0 :=
  ⟨by decide,
   (claim_C2 idHash envInvalid "sid-1" "pikachu"
     { emptyWorld with
       sessions := fun k => if k = "sid-1"
         then some { animal := "pikachu", status := "processing" } else none }).2
     (by decide)⟩

/-- Claim C4: the submit handler performs no provider I/O for any input, and a
poll emits exactly the processing pipeline's events when it observes the
stored `processing` status and no events otherwise. -/
theorem claim_C4 (md5hex : String → String) (env : Providers) (ip animal sid : String)
    (w : World) :
    providerCalls (research_animal ip animal sid w).2.2 = 0 ∧
    (get_status md5hex env sid w).2.2
      = (match w.sessions sid with
         | some sd =>
           if sd.status = "processing"
             then (process_animal_research_sync md5hex env sid sd.animal w).2 else []
         | none => []) := by
  constructor
  · unfold research_animal
    split
    · rfl
    · split <;> rfl
  · unfold get_status
    cases hs : w.sessions sid with
    | none => rfl
    | some sd =>
      simp only []
      by_cases hstat : sd.status = "processing"
      · rw [if_pos hstat]
        cases hp : process_animal_research_sync md5hex env sid sd.animal w with
        | mk w' tr =>
          simp only []
          cases hws : w'.sessions sid <;> simp [hstat]
      · simp [hstat]

/-- Claim C5: every session record written by the submit handler or by a
processing run satisfies the invariant: `completed` implies both payloads
present; an error-like status implies a non-empty error list. -/
theorem claim_C5 (md5hex : String → String) (env : Providers) (ip animal sid : String)
    (w : World) (hw : w.writes = []) :
    (∀ s ∈ (research_animal ip animal sid w).2.1.writes, sessionInv s) ∧
    (∀ s ∈ (process_animal_research_sync md5hex env sid animal w).1.writes,
      sessionInv s) := by
  constructor
  · intro s hmem
    unfold research_animal at hmem
    split at hmem
    · rw [hw] at hmem
      exact absurd hmem (List.not_mem_nil s)
    · split at hmem
      · simp [writeSession, hw] at hmem
        subst hmem
        simp [sessionInv]
      · simp [writeSession, hw] at hmem
        subst hmem
        simp [sessionInv]
  · rcases process_cases md5hex env sid animal w with
      ⟨_, hP⟩ | ⟨sd, cd, img, _, _, _, hP⟩ | ⟨sd, cd, _, _, _, hP⟩ | ⟨sd, _, _, _, hP⟩
      | ⟨sd, _, _, _, _, hP⟩ | ⟨sd, _, _, _, _, _, hP⟩ | ⟨sd, _, _, _, _, _, hP⟩ <;>
    rw [hP] <;> intro s hmem <;> simp [writeSession, hw] at hmem
    · rcases hmem with rfl
      simp [sessionInv]
    · rcases hmem with rfl
      simp [sessionInv]
    · rcases hmem with rfl | rfl <;> simp [sessionInv]
    · rcases hmem with rfl | rfl <;> simp [sessionInv]
    · rcases hmem with rfl | rfl | rfl <;> simp [sessionInv]
    · rcases hmem with rfl | rfl | rfl <;> simp [sessionInv]

/-- Concrete instantiation of C5: the fresh `processing` record written by a
successful submit satisfies the invariant. -/
theorem claim_C5_witness :
    emptyWorld.writes = [] ∧
    sessionInv { animal := "lion", status := "processing", info := none, image := none,
                 errors := [], fromCache := false } := by
  refine ⟨rfl, ?_⟩
  refine (claim_C5 idHash envValid "203.0.113.20" "lion" "sid-1" emptyWorld rfl).1 _ ?_
  decide

/-- The world with a complete cache entry for `lion` and nothing else. -/
def worldLionCached : World :=
{ emptyWorld with
  cache := Cache.cache_animal_image idHash "lion" "data:image/png;base64,AAA" "lion" 0
    (Cache.cache_animal_info idHash "lion" "Lion facts" "lion" 0 Cache.emptyCache) }

/-- Claim C6 (counterexample): even when the complete result is already
cached, the submit handler performs the rate-limit check and increments the
client's counters — the rate limiter is not consulted "only after a
complete-cache miss". -/
theorem claim_C6_counterexample :
    (Cache.get_complete_cached_animal idHash "lion" worldLionCached.cache).isSome
      = true ∧
    (research_animal "203.0.113.12" "lion" "sid-1" worldLionCached).2.2
      = [Ev.rateCheck] ∧
    (research_animal "203.0.113.12" "lion" "sid-1" worldLionCached).2.1.rl.counters
      (RL.rate_limit_key "203.0.113.12" "minute") = some 1 := by
  refine ⟨rfl, rfl, ?_⟩
  decide

/-- Claim C6 (amended): the rate limiter is consulted (and counters are
incremented) at submit time, before and regardless of any cache state; during
processing, the cache is checked first (the trace starts with the cache
lookup), no provider is invoked when the cache-hit branch is taken, and
processing itself never touches the rate-limiter store. -/
theorem claim_C6_amended (md5hex : String → String) (env : Providers)
    (ip animal sid : String) (w : World) (sd : Session)
    (hs : w.sessions sid = some sd) (ha : pyStrip animal ≠ "") :
    (research_animal ip animal sid w).2.2 = [Ev.rateCheck] ∧
    (∃ rest, (process_animal_research_sync md5hex env sid animal w).2
        = Ev.cacheCheck :: rest) ∧
    ((Cache.get_complete_cached_animal md5hex animal w.cache).isSome = true →
      providerCalls (process_animal_research_sync md5hex env sid animal w).2 = 0) ∧
    (process_animal_research_sync md5hex env sid animal w).1.rl = w.rl := by
  refine ⟨?_, ?_, ?_, ?_⟩
  · unfold research_animal
    rw [if_neg ha]
    split <;> rfl
  · rcases process_cases md5hex env sid animal w with
      ⟨h0, _⟩ | ⟨sd', cd, img, _, _, _, hP⟩ | ⟨sd', cd, _, _, _, hP⟩ | ⟨sd', _, _, _, hP⟩
      | ⟨sd', _, _, _, _, hP⟩ | ⟨sd', _, _, _, _, _, hP⟩ | ⟨sd', _, _, _, _, _, hP⟩
    · rw [hs] at h0
      exact Option.noConfusion h0
    all_goals rw [hP]
    all_goals exact ⟨_, rfl⟩
  · intro hcomp
    rcases process_cases md5hex env sid animal w with
      ⟨h0, _⟩ | ⟨sd', cd, img, _, _, _, hP⟩ | ⟨sd', cd, _, _, _, hP⟩ | ⟨sd', _, hc, _, hP⟩
      | ⟨sd', _, hc, _, _, hP⟩ | ⟨sd', _, hc, _, _, _, hP⟩ | ⟨sd', _, hc, _, _, _, hP⟩
    · rw [hs] at h0
      exact Option.noConfusion h0
    · rw [hP]
      rfl
    · rw [hP]
      rfl
    all_goals rw [hc] at hcomp
    all_goals exact Bool.noConfusion hcomp
  · rcases process_cases md5hex env sid animal w with
      ⟨_, hP⟩ | ⟨sd', cd, img, _, _, _, hP⟩ | ⟨sd', cd, _, _, _, hP⟩ | ⟨sd', _, _, _, hP⟩
      | ⟨sd', _, _, _, _, hP⟩ | ⟨sd', _, _, _, _, _, hP⟩ | ⟨sd', _, _, _, _, _, hP⟩ <;>
    rw [hP] <;> simp [writeSession]

/-- Concrete instantiation of C6 (amended) on the cached-lion world. -/
theorem claim_C6_amended_witness :
    (research_animal "203.0.113.12" "lion" "sid-1"
      { worldLionCached with
        sessions := fun k => if k = "sid-1"
          then some { animal := "lion", status := "processing" } else none }).2.2
      = [Ev.rateCheck] ∧
    providerCalls (process_animal_research_sync idHash envValid "sid-1" "lion"
      { worldLionCached with
        sessions := fun k => if k = "sid-1"
          then some { animal := "lion", status := "processing" } else none }).2 = 0 := by
  have h := claim_C6_amended idHash envValid "203.0.113.12" "lion" "sid-1"
    { worldLionCached with
      sessions := fun k => if k = "sid-1"
        then some { animal := "lion", status := "processing" } else none }
    { animal := "lion", status := "processing" } (by decide) (by decide)
  exact ⟨h.1, h.2.2.1 (by decide)⟩

/-- Claim C8 (counterexample): the submit handler stores a session whose
status is `"processing"`, which is not among the seven values the claim
lists. -/
theorem claim_C8_counterexample :
    ((research_animal "203.0.113.13" "lion" "sid-1" emptyWorld).2.1.writes.map
        (fun s => s.status)) = ["processing"] ∧
    "processing" ∉ (["pending", "fetching_info", "fetching_image", "completed",
        "error", "invalid_input", "rate_limited"] : List String) := by
  exact ⟨rfl, by decide⟩

/-- Claim C8 (amended): every session record written by the submit handler or
by a processing run has one of the seven statuses `processing`,
`getting_info`, `generating_image`, `completed`, `error`, `invalid_animal`,
`rate_limited`. -/
theorem claim_C8_amended (md5hex : String → String) (env : Providers)
    (ip animal sid : String) (w : World) (hw : w.writes = []) :
    (∀ s ∈ (research_animal ip animal sid w).2.1.writes, s.status ∈ statusValues) ∧
    (∀ s ∈ (process_animal_research_sync md5hex env sid animal w).1.writes,
      s.status ∈ statusValues) := by
  constructor
  · intro s hmem
    unfold research_animal at hmem
    split at hmem
    · rw [hw] at hmem
      exact absurd hmem (List.not_mem_nil s)
    · split at hmem
      · simp [writeSession, hw] at hmem
        subst hmem
        simp [statusValues]
      · simp [writeSession, hw] at hmem
        subst hmem
        simp [statusValues]
  · rcases process_cases md5hex env sid animal w with
      ⟨_, hP⟩ | ⟨sd, cd, img, _, _, _, hP⟩ | ⟨sd, cd, _, _, _, hP⟩ | ⟨sd, _, _, _, hP⟩
      | ⟨sd, _, _, _, _, hP⟩ | ⟨sd, _, _, _, _, _, hP⟩ | ⟨sd, _, _, _, _, _, hP⟩ <;>
    rw [hP] <;> intro s hmem <;> simp [writeSession, hw] at hmem
    · rcases hmem with rfl
      simp [statusValues]
    · rcases hmem with rfl
      simp [statusValues]
    · rcases hmem with rfl | rfl <;> simp [statusValues]
    · rcases hmem with rfl | rfl <;> simp [statusValues]
    · rcases hmem with rfl | rfl | rfl <;> simp [statusValues]
    · rcases hmem with rfl | rfl | rfl <;> simp [statusValues]

/-- Concrete instantiation of C8 (amended): the status stored by a successful
submit is one of the seven actual values. -/
theorem claim_C8_amended_witness :
    ({ animal := "lion", status := "processing", info := none, image := none,
       errors := [], fromCache := false } : Session).status ∈ statusValues := by
  refine (claim_C8_amended idHash envValid "203.0.113.20" "lion" "sid-1" emptyWorld
    rfl).1 _ ?_
  decide

/-- Claim C10: on a partial cache hit (info cached, image not), processing
reads the absent `'image'` key, the resulting `KeyError` is caught by the
outer handler, the session ends in `error`, and neither provider is ever
invoked — the job never reaches `completed` from a partial hit. -/
theorem claim_C10 (md5hex : String → String) (env : Providers) (sid animal : String)
    (w : World) (sd : Session) (hit : Cache.InfoCacheHit)
    (hs : w.sessions sid = some sd)
    (hinfo : Cache.get_cached_animal_info md5hex animal w.cache = some hit)
    (himg : Cache.get_cached_animal_image md5hex animal w.cache = none) :
    (process_animal_research_sync md5hex env sid animal w).1.sessions sid
      = some { sd with
               status := "error",
               errors := sd.errors ++ ["Unexpected error: \x27image\x27"] } ∧
    (process_animal_research_sync md5hex env sid animal w).2 = [Ev.cacheCheck] ∧
    providerCalls (process_animal_research_sync md5hex env sid animal w).2 = 0 := by
  have hc : Cache.get_complete_cached_animal md5hex animal w.cache
      = some { info := hit.info, image := none, english_name := hit.english_name,
               partialCache := true, cached_at := hit.cached_at } := by
    unfold Cache.get_complete_cached_animal
    rw [hinfo, himg]
  have hP := process_eq_partial md5hex env sid animal w sd _ hs hc rfl
  rw [hP]
  exact ⟨writeSession_sessions_self _ _ _, rfl, rfl⟩

/-- Concrete instantiation of C10: `lion` with only cached info ends in
`error` with the `KeyError` text and an empty provider-call count. -/
theorem claim_C10_witness :
    (process_animal_research_sync idHash envValid "sid-1" "lion"
      { emptyWorld with
        cache := Cache.cache_animal_info idHash "lion" "Lion facts" "lion" 0
          Cache.emptyCache,
        sessions := fun k => if k = "sid-1"
          then some { animal := "lion", status := "processing" } else none }).1.sessions
      "sid-1"
      = some { animal := "lion", status := "error", info := none, image := none,
               errors := ["Unexpected error: \x27image\x27"], fromCache := false } :=
  (claim_C10 idHash envValid "sid-1" "lion"
    { emptyWorld with
      cache := Cache.cache_animal_info idHash "lion" "Lion facts" "lion" 0
        Cache.emptyCache,
      sessions := fun k => if k = "sid-1"
        then some { animal := "lion", status := "processing" } else none }
    { animal := "lion", status := "processing" }
    { info := "Lion facts", english_name := "lion", cached_at := 0 }
    (by decide) (by decide) (by decide)).1

end Web

end AnimalExplorer
